import Mathlib

/-!
Shallow embedding of the Go HTTP demo service in this repository, in two
variants: the standard-library mux variant (src/app/main.go) and the chi
variant (src/unnamed/part_000).  Pure response computations become Lean
functions; effectful sequences (ResponseWriter calls, tracer start/defer-end,
startup and shutdown) become explicit state passing or event traces.  Clock
readings (time.Now().UTC()) are passed in as explicit Nat parameters.
-/

/-- JSON values as handled by encoding/json in the Go code.  Numbers keep
their raw lexeme (a Go handler passes decoded values straight back out, so
structural equality at the lexeme level is the faithful notion here);
`jtime` embeds a time.Time value (seconds plus a UTC flag) as produced by
time.Now().UTC() inside a map passed to json encoding. -/
inductive JVal where
  | jnull
  | jbool (b : Bool)
  | jnum (raw : String)
  | jstr (s : String)
  | jarr (xs : List JVal)
  | jobj (fields : List (String × JVal))
  | jtime (sec : Nat) (utc : Bool)
  deriving Repr

/-- Field lookup in an embedded JSON object, as a client would read it. -/
def jlookup (fields : List (String × JVal)) (k : String) : Option JVal :=
  (fields.find? fun p => p.1 == k).map fun p => p.2

/-! ## writeJSON (src/app/main.go lines 23-27, src/unnamed/part_000 lines 28-32) -/

/-- The state of an http.ResponseWriter as observed by the client: response
headers, the written status code (none before WriteHeader), and the body
chunks written so far. -/
structure RespWriter where
  headers : List (String × String)
  statusWritten : Option Nat
  body : List String
  deriving Repr, DecidableEq

/-- Header().Set: replace any existing value for the key. -/
def setHeader (hs : List (String × String)) (k v : String) : List (String × String) :=
  (hs.filter fun p => p.1 != k) ++ [(k, v)]

/-- Observable steps performed by writeJSON, in order. -/
inductive WriteEv where
  | headerSet (k v : String)
  | statusSet (code : Nat)
  | encodeAttempt
  | bodyChunk (s : String)
  deriving Repr, DecidableEq

/-- writeJSON from both variants: set Content-Type, write the status code,
then encode the value.  json.NewEncoder(w).Encode(v) serializes first and
writes only on success, so its outcome is embedded as an
`Except String String` (error, or the serialized bytes); the Go code
discards the returned error (`_ = ...`), so the last component (the error
surfaced to the caller) is always `none`. -/
def writeJSON (w : RespWriter) (status : Nat) (enc : Except String String) :
    RespWriter × List WriteEv × Option String :=
  let w1 : RespWriter :=
    { w with headers := setHeader w.headers "Content-Type" "application/json; charset=utf-8" }
  let w2 : RespWriter := { w1 with statusWritten := some status }
  match enc with
  | .ok s =>
      ({ w2 with body := w2.body ++ [s] },
       [WriteEv.headerSet "Content-Type" "application/json; charset=utf-8",
        WriteEv.statusSet status, WriteEv.encodeAttempt, WriteEv.bodyChunk s],
       none)
  | .error _ =>
      (w2,
       [WriteEv.headerSet "Content-Type" "application/json; charset=utf-8",
        WriteEv.statusSet status, WriteEv.encodeAttempt],
       none)

/-! ## The hello and user handlers (identical response logic in both variants:
src/app/main.go lines 139-168, src/unnamed/part_000 lines 104-139) -/

/-- GET /hello: r.URL.Query().Get("name") returns "" when the parameter is
absent; an empty name defaults to "World".  Returns the (status, value)
pair passed to writeJSON. -/
def getHello (nameParam : Option String) : Nat × JVal :=
  let name := nameParam.getD ""
  let name := if name = "" then "World" else name
  (200, JVal.jobj [("message", JVal.jstr ("Hello, " ++ name ++ "!"))])

/-- GET /users/\x7bid\x7d: the raw path parameter is passed through unchanged;
created_at is time.Now().UTC() read at `clock`, embedded as a jobj field. -/
def getUserByID (id : String) (clock : Nat) : Nat × JVal :=
  (200, JVal.jobj
    [("id", JVal.jstr id),
     ("profile", JVal.jobj
       [("nickname", JVal.jstr "guest"),
        ("created_at", JVal.jtime clock true)])])

/-! ## Startup configuration and the exporter (C5, C6, C7)
src/app/main.go lines 37-113, src/unnamed/part_000 lines 34-62 and 141-156. -/

/-- The two environment variables read at startup.  os.Getenv returns ""
both when a variable is absent and when it is set to the empty string, so
absence is modelled as the empty string. -/
structure Env where
  newRelicOtlpEndpoint : String
  newRelicApiKey : String
  deriving Repr, DecidableEq

/-- The configuration handed to otlptracegrpc.New on the success path. -/
structure ExporterCfg where
  endpoint : String
  grpcHeaders : List (String × String)
  deriving Repr, DecidableEq

/-- Observable startup events: opening the gRPC channel to the collector
(the only network activity during init), binding the listener, and the
warning log of the stdlib variant. -/
inductive StartEv where
  | connectCollector (endpoint : String) (grpcHeaders : List (String × String))
  | bindListener (port : Nat)
  | logWarning
  deriving Repr, DecidableEq

/-- newExporter (src/unnamed/part_000 lines 34-62): both environment checks
run before otlptracegrpc.New, so a missing value returns an error with an
empty event trace (no network activity). -/
def newExporter (env : Env) : Except String ExporterCfg × List StartEv :=
  if env.newRelicOtlpEndpoint = "" then
    (Except.error "NEW_RELIC_OTLP_ENDPOINT environment variable is required", [])
  else if env.newRelicApiKey = "" then
    (Except.error "NEW_RELIC_API_KEY environment variable is required", [])
  else
    (Except.ok
      { endpoint := env.newRelicOtlpEndpoint,
        grpcHeaders := [("Accept", "*/*"), ("api-key", env.newRelicApiKey)] },
     [StartEv.connectCollector env.newRelicOtlpEndpoint
        [("Accept", "*/*"), ("api-key", env.newRelicApiKey)]])

/-- initTracer (src/app/main.go lines 37-93): same checks and order as
newExporter, but without the Accept header. -/
def initTracer (env : Env) : Except String ExporterCfg × List StartEv :=
  if env.newRelicOtlpEndpoint = "" then
    (Except.error "NEW_RELIC_OTLP_ENDPOINT environment variable is required", [])
  else if env.newRelicApiKey = "" then
    (Except.error "NEW_RELIC_API_KEY environment variable is required", [])
  else
    (Except.ok
      { endpoint := env.newRelicOtlpEndpoint,
        grpcHeaders := [("api-key", env.newRelicApiKey)] },
     [StartEv.connectCollector env.newRelicOtlpEndpoint
        [("api-key", env.newRelicApiKey)]])

/-- The startup outcome of a variant's main function. -/
inductive StartupOutcome where
  | exitNonZero (code : Nat)
  | serving (tracingEnabled : Bool)
  deriving Repr, DecidableEq

/-- main of src/app/main.go (lines 95-187): on initTracer failure it logs a
warning and continues; otel.SetTracerProvider is only called inside
initTracer's success path, so on failure the global provider stays the
no-op default and the process serves with tracing disabled. -/
def mainStd (env : Env) : StartupOutcome × List StartEv :=
  match initTracer env with
  | (Except.error _, evs) =>
      (StartupOutcome.serving false, evs ++ [StartEv.logWarning, StartEv.bindListener 8080])
  | (Except.ok _, evs) =>
      (StartupOutcome.serving true, evs ++ [StartEv.bindListener 8080])

/-- main of src/unnamed/part_000 (lines 141-207): on newExporter failure,
log.Fatalf exits the process with status 1 before the router is built and
before the listener is bound. -/
def mainChi (env : Env) : StartupOutcome × List StartEv :=
  match newExporter env with
  | (Except.error _, evs) => (StartupOutcome.exitNonZero 1, evs)
  | (Except.ok _, evs) =>
      (StartupOutcome.serving true, evs ++ [StartEv.bindListener 8080])

/-! ## Shutdown (C5)
src/app/main.go lines 106-112 and 193-196, src/unnamed/part_000 lines 152
and 203-206. -/

/-- The context deadlines (in seconds) wired into the two shutdown phases:
`some t` is context.WithTimeout(Background, t seconds), `none` is a bare
context.Background(). -/
structure ShutdownPlan where
  listenerTimeout : Option Nat
  providerTimeout : Option Nat
  deriving Repr, DecidableEq

/-- The stdlib variant: srv.Shutdown under a 10s context (line 193),
tp.Shutdown under a 5s context (line 107). -/
def stdShutdownPlan : ShutdownPlan :=
  { listenerTimeout := some 10, providerTimeout := some 5 }

/-- The chi variant: srv.Shutdown under a 10s context (line 203), but
tp.Shutdown is deferred with a plain background context (line 152). -/
def chiShutdownPlan : ShutdownPlan :=
  { listenerTimeout := some 10, providerTimeout := none }

/-- How long a shutdown phase blocks when the underlying work (draining
connections, flushing buffered spans) would take `work` seconds: a context
deadline caps the wait, a background context waits for all of it. -/
def blockTime (ctxTimeout : Option Nat) (work : Nat) : Nat :=
  match ctxTimeout with
  | some t => min work t
  | none => work

/-- A phase is bounded when some fixed bound caps its blocking time no
matter how much work the flush would need. -/
def phaseBounded (ctxTimeout : Option Nat) : Prop :=
  ∃ B, ∀ work, blockTime ctxTimeout work ≤ B

/-! ## Span lifecycle inside a request (C1)
Handler bodies from src/app/main.go lines 119-168 and src/unnamed/part_000
lines 84-139, and the otelhttp middleware wrapper around them. -/

/-- A handler-body statement.  `tracer.Start` immediately followed on the
next source line by `defer span.End()` is one prologue step
(`startSpanDeferEnd`): no code runs between the two statements in any
handler, and the deferral guarantees the end on every exit path. -/
inductive HStmt where
  | startSpanDeferEnd (name : String)
  | setAttr (key value : String)
  | logLine
  | respond (status : Nat)
  deriving Repr, DecidableEq

/-- Span lifecycle events in execution order. -/
inductive SpanEv where
  | spanStart (name : String)
  | spanEnd (name : String)
  deriving Repr, DecidableEq

/-- Names of the spans started by the executed prefix of a body. -/
def startedNames (stmts : List HStmt) : List String :=
  stmts.filterMap fun s =>
    match s with
    | HStmt.startSpanDeferEnd n => some n
    | _ => none

/-- Span events of a handler invocation in which only the first `k`
statements run (k ≥ length is a normal return; a smaller k is an early
termination or panic-equivalent failure at that point).  Go runs the
registered defers, in reverse registration order, on every exit path. -/
def handlerEvents (stmts : List HStmt) (k : Nat) : List SpanEv :=
  let ran := startedNames (stmts.take k)
  ran.map SpanEv.spanStart ++ ran.reverse.map SpanEv.spanEnd

/-- One full request through the otelhttp middleware: it starts the request
span before invoking the wrapped handler and ends it by deferral after the
handler returns or fails (src/app/main.go line 171, src/unnamed/part_000
lines 171-181; the middleware's end is a scoped-release guarantee). -/
def requestEvents (rootName : String) (stmts : List HStmt) (k : Nat) : List SpanEv :=
  SpanEv.spanStart rootName :: (handlerEvents stmts k ++ [SpanEv.spanEnd rootName])

/-- Scope checker: scanning the events with a stack of open spans, every
end must match an open span and every opened span must be closed by the
end of the trace. -/
def scopeCheck (stk : List String) : List SpanEv → Bool
  | [] => stk.isEmpty
  | SpanEv.spanStart n :: rest => scopeCheck (n :: stk) rest
  | SpanEv.spanEnd n :: rest =>
      if stk.contains n then scopeCheck (stk.erase n) rest else false

/-- Names started in an event trace. -/
def spanStarts (evs : List SpanEv) : List String :=
  evs.filterMap fun e =>
    match e with
    | SpanEv.spanStart n => some n
    | _ => none

/-- Names ended in an event trace. -/
def spanEnds (evs : List SpanEv) : List String :=
  evs.filterMap fun e =>
    match e with
    | SpanEv.spanEnd n => some n
    | _ => none

/-- The GET /healthz body (src/app/main.go lines 119-127; identically
getHealtz, src/unnamed/part_000 lines 84-92). -/
def healthzStmts (path : String) : List HStmt :=
  [HStmt.startSpanDeferEnd "health_check",
   HStmt.setAttr "http.target" path,
   HStmt.respond 200]

/-- The GET / body (src/app/main.go lines 129-137; identically getRoot,
src/unnamed/part_000 lines 94-102). -/
def rootStmts (path : String) : List HStmt :=
  [HStmt.startSpanDeferEnd "root_handler",
   HStmt.setAttr "http.target" path,
   HStmt.respond 200]

/-- The GET /hello body of the stdlib variant (src/app/main.go
lines 139-154). -/
def helloStmts (path nm : String) : List HStmt :=
  [HStmt.startSpanDeferEnd "hello_handler",
   HStmt.setAttr "http.target" path,
   HStmt.setAttr "hello.name" nm,
   HStmt.respond 200]

/-- getHello of the chi variant (src/unnamed/part_000 lines 104-125): same
as the stdlib body plus the trace-id debug log after the span starts. -/
def helloChiStmts (path nm : String) : List HStmt :=
  [HStmt.startSpanDeferEnd "hello_handler",
   HStmt.logLine,
   HStmt.setAttr "http.target" path,
   HStmt.setAttr "hello.name" nm,
   HStmt.respond 200]

/-- The GET /users/\x7bid\x7d body (src/app/main.go lines 156-168;
identically getUserByID, src/unnamed/part_000 lines 127-139). -/
def userStmts (path id : String) : List HStmt :=
  [HStmt.startSpanDeferEnd "get_user_handler",
   HStmt.setAttr "http.target" path,
   HStmt.setAttr "user.id" id,
   HStmt.respond 200]

/-- All eight registered handler bodies, four per variant (the chi variant
shares every body except getHello's extra log line). -/
def allHandlerBodies (path nm id : String) : List (List HStmt) :=
  [healthzStmts path, rootStmts path, helloStmts path nm, userStmts path id,
   healthzStmts path, rootStmts path, helloChiStmts path nm, userStmts path id]

/-! ## Middleware span naming and context extraction (C3)
src/app/main.go lines 170-171, src/unnamed/part_000 lines 170-181. -/

/-- First matching header value, as http.Header lookup behaves for the
canonical key. -/
def headerGet (hs : List (String × String)) (k : String) : Option String :=
  (hs.find? fun p => p.1 == k).map fun p => p.2

/-- Modelled from the spec: whitespace skipping of the JSON decoder used by
the POST /echo variant, which is described in the spec table but whose
source file is not in the repository snapshot. -/
def skipWs : List Char → List Char
  | c :: cs =>
      if c == ' ' || c == '\t' || c == '\n' || c == '\r' then skipWs cs else c :: cs
  | [] => []

/-- Modelled from the spec: decoding of a single-character JSON string
escape; the \uXXXX form is handled separately by uEsc. -/
def escChar (e : Char) : Option Char :=
  if e == '"' then some '"'
  else if e == '\\' then some '\\'
  else if e == '/' then some '/'
  else if e == 'n' then some '\n'
  else if e == 't' then some '\t'
  else if e == 'r' then some '\r'
  else if e == 'b' then some (Char.ofNat 8)
  else if e == 'f' then some (Char.ofNat 12)
  else none

/-- Modelled from the spec: the numeric value of one hex digit of a \uXXXX
escape (JSON allows either case here). -/
def hexVal (c : Char) : Option Nat :=
  if c.isDigit then some (c.toNat - 48)
  else if 'a' ≤ c && c ≤ 'f' then some (c.toNat - 87)
  else if 'A' ≤ c && c ≤ 'F' then some (c.toNat - 55)
  else none

/-- Modelled from the spec: four hex digits of a \uXXXX escape. -/
def hex4 : List Char → Option (Nat × List Char)
  | a :: b :: c :: d :: rest =>
      match hexVal a, hexVal b, hexVal c, hexVal d with
      | some x, some y, some z, some w => some (4096 * x + 256 * y + 16 * z + w, rest)
      | _, _, _, _ => none
  | _ => none

/-- Modelled from the spec: a \uXXXX escape after its backslash-u prefix,
as encoding/json decodes it: a high surrogate immediately followed by a
low-surrogate escape combines into one code point, and an unpaired
surrogate half becomes U+FFFD (never an error). -/
def uEsc (cs : List Char) : Option (Char × List Char) :=
  match hex4 cs with
  | none => none
  | some (n, rest) =>
      if 55296 ≤ n && n ≤ 56319 then
        match rest with
        | '\\' :: 'u' :: rest2 =>
            match hex4 rest2 with
            | some (m, rest3) =>
                if 56320 ≤ m && m ≤ 57343 then
                  some (Char.ofNat (65536 + (n - 55296) * 1024 + (m - 56320)), rest3)
                else some (Char.ofNat 65533, rest)
            | none => some (Char.ofNat 65533, rest)
        | _ => some (Char.ofNat 65533, rest)
      else if 56320 ≤ n && n ≤ 57343 then some (Char.ofNat 65533, rest)
      else some (Char.ofNat n, rest)

/-- Modelled from the spec: the body of a JSON string after its opening
quote; returns the decoded content and the input after the closing quote.
The fuel only bounds recursion depth; every step consumes at least one
character, so callers pass the input length plus one. -/
def strBody : Nat → List Char → Option (List Char × List Char)
  | 0, _ => none
  | Nat.succ _, [] => none
  | Nat.succ fuel, c :: rest =>
      if c == '"' then some ([], rest)
      else if c == '\\' then
        match rest with
        | [] => none
        | e :: rest2 =>
            if e == 'u' then
              match uEsc rest2 with
              | none => none
              | some (d, rest3) => (strBody fuel rest3).map fun pr => (d :: pr.1, pr.2)
            else
              match escChar e with
              | some d => (strBody fuel rest2).map fun pr => (d :: pr.1, pr.2)
              | none => none
      else if c.toNat < 32 then none
      else (strBody fuel rest).map fun pr => (c :: pr.1, pr.2)

/-- Modelled from the spec: a maximal run of decimal digits. -/
def digitRun : List Char → List Char × List Char
  | c :: cs =>
      if c.isDigit then
        let pr := digitRun cs
        (c :: pr.1, pr.2)
      else ([], c :: cs)
  | [] => ([], [])

/-- Modelled from the spec: the optional fraction part of a JSON number. -/
def fracPart : List Char → Option (List Char × List Char)
  | c :: cs =>
      if c == '.' then
        match digitRun cs with
        | ([], _) => none
        | (ds, rest) => some ('.' :: ds, rest)
      else some ([], c :: cs)
  | [] => some ([], [])

/-- Modelled from the spec: the optional exponent part of a JSON number. -/
def expPart : List Char → Option (List Char × List Char)
  | c :: cs =>
      if c == 'e' || c == 'E' then
        let sg : List Char × List Char :=
          match cs with
          | d :: cs2 => if d == '+' || d == '-' then ([d], cs2) else ([], cs)
          | [] => ([], [])
        match digitRun sg.2 with
        | ([], _) => none
        | (ds, rest) => some (c :: (sg.1 ++ ds), rest)
      else some ([], c :: cs)
  | [] => some ([], [])

/-- Modelled from the spec: a JSON number lexeme (sign, integer part,
optional fraction and exponent), returned raw.  The JSON grammar (and
encoding/json) rejects integer parts with a leading zero such as "01". -/
def numberLexeme (cs : List Char) : Option (List Char × List Char) :=
  let sign : List Char × List Char :=
    match cs with
    | c :: cs2 => if c == '-' then (['-'], cs2) else ([], cs)
    | [] => ([], [])
  match digitRun sign.2 with
  | ([], _) => none
  | (ip, cs2) =>
    if 1 < ip.length && ip.head? == some '0' then none else
      match fracPart cs2 with
      | none => none
      | some (fp, cs3) =>
          match expPart cs3 with
          | none => none
          | some (ep, cs4) => some (sign.1 ++ ip ++ fp ++ ep, cs4)

/-- Modelled from the spec: match a literal keyword (true, false, null). -/
def stripLit : List Char → List Char → Option (List Char)
  | [], cs => some cs
  | l :: ls, c :: cs => if l == c then stripLit ls cs else none
  | _ :: _, [] => none

mutual

/-- Modelled from the spec: a recursive-descent decoder for one JSON value,
standing in for the echo variant's encoding/json decode of an arbitrary
body.  The fuel argument only bounds recursion depth; parseJson below
supplies enough for any input. -/
def parseVal : Nat → List Char → Option (JVal × List Char)
  | 0, _ => none
  | Nat.succ fuel, cs =>
      match skipWs cs with
      | [] => none
      | c :: rest =>
          if c == '"' then
            (strBody (rest.length + 1) rest).map fun pr => (JVal.jstr (String.mk pr.1), pr.2)
          else if c == '\x7b' then
            match skipWs rest with
            | '\x7d' :: r2 => some (JVal.jobj [], r2)
            | r2 => (parseMembers fuel r2).map fun pr => (JVal.jobj pr.1, pr.2)
          else if c == '[' then
            match skipWs rest with
            | ']' :: r2 => some (JVal.jarr [], r2)
            | r2 => (parseElems fuel r2).map fun pr => (JVal.jarr pr.1, pr.2)
          else if c == 't' then
            (stripLit ['r', 'u', 'e'] rest).map fun r => (JVal.jbool true, r)
          else if c == 'f' then
            (stripLit ['a', 'l', 's', 'e'] rest).map fun r => (JVal.jbool false, r)
          else if c == 'n' then
            (stripLit ['u', 'l', 'l'] rest).map fun r => (JVal.jnull, r)
          else
            (numberLexeme (c :: rest)).map fun pr => (JVal.jnum (String.mk pr.1), pr.2)

/-- Modelled from the spec: one or more "key": value members of a JSON
object, starting after the opening brace (and any leading whitespace),
ending at the closing brace. -/
def parseMembers : Nat → List Char → Option (List (String × JVal) × List Char)
  | 0, _ => none
  | Nat.succ fuel, cs =>
      match skipWs cs with
      | c :: rest =>
          if c == '"' then
            match strBody (rest.length + 1) rest with
            | none => none
            | some (k, r1) =>
                match skipWs r1 with
                | ':' :: r2 =>
                    match parseVal fuel r2 with
                    | none => none
                    | some (v, r3) =>
                        match skipWs r3 with
                        | ',' :: r4 =>
                            (parseMembers fuel r4).map fun pr =>
                              ((String.mk k, v) :: pr.1, pr.2)
                        | '\x7d' :: r4 => some ([(String.mk k, v)], r4)
                        | _ => none
                | _ => none
          else none
      | [] => none

/-- Modelled from the spec: one or more elements of a JSON array, starting
after the opening bracket (and any leading whitespace). -/
def parseElems : Nat → List Char → Option (List JVal × List Char)
  | 0, _ => none
  | Nat.succ fuel, cs =>
      match parseVal fuel cs with
      | none => none
      | some (v, r1) =>
          match skipWs r1 with
          | ',' :: r2 => (parseElems fuel r2).map fun pr => (v :: pr.1, pr.2)
          | ']' :: r2 => some ([v], r2)
          | _ => none

end

/-- Modelled from the spec: parse a request body as a single JSON value
with nothing but whitespace after it.  The fuel bound exceeds any
recursion depth reachable on the input. -/
def parseJson (s : String) : Option JVal :=
  match parseVal (2 * s.data.length + 4) s.data with
  | some (v, rest) => if (skipWs rest).isEmpty then some v else none
  | none => none

/-- Modelled from the spec: the POST /echo handler of the echo variant
(spec section 4.6): decode the body, echo it back under you_sent with a
UTC timestamp under at, or answer 400 with an error payload when the body
is not valid JSON. -/
def postEcho (body : String) (clock : Nat) : Nat × JVal :=
  match parseJson body with
  | some v => (200, JVal.jobj [("you_sent", v), ("at", JVal.jtime clock true)])
  | none => (400, JVal.jobj [("error", JVal.jstr "invalid JSON")])

/-! ## Helper lemmas -/

/-- A block of starts immediately closed in reverse order leaves the scope
checker's stack exactly where it was. -/
theorem scopeCheck_bracket (L : List String) :
    ∀ (stk : List String) (rest : List SpanEv),
      scopeCheck stk (L.map SpanEv.spanStart ++ (L.reverse.map SpanEv.spanEnd ++ rest)) =
        scopeCheck stk rest := by
  induction L with
  | nil => intro stk rest; rfl
  | cons n L ih =>
      intro stk rest
      have hrev : (n :: L).reverse.map SpanEv.spanEnd =
          L.reverse.map SpanEv.spanEnd ++ [SpanEv.spanEnd n] := by
        simp
      rw [hrev, List.map_cons, List.cons_append]
      show scopeCheck (n :: stk)
          (L.map SpanEv.spanStart ++ ((L.reverse.map SpanEv.spanEnd ++ [SpanEv.spanEnd n]) ++ rest)) =
        scopeCheck stk rest
      rw [List.append_assoc, List.singleton_append,
        ih (n :: stk) (SpanEv.spanEnd n :: rest)]
      show (if (n :: stk).contains n then scopeCheck ((n :: stk).erase n) rest else false) =
        scopeCheck stk rest
      simp [List.contains_cons]

/-- Every request trace produced by the middleware-plus-handler model
passes the scope check: every end matches an open span and every opened
span is closed before the trace ends. -/
theorem requestEvents_wellScoped (root : String) (stmts : List HStmt) (k : Nat) :
    scopeCheck [] (requestEvents root stmts k) = true := by
  show scopeCheck [root]
      (handlerEvents stmts k ++ [SpanEv.spanEnd root]) = true
  unfold handlerEvents
  rw [List.append_assoc, scopeCheck_bracket]
  simp [scopeCheck]

/-- spanStarts distributes over concatenation of traces. -/
theorem spanStarts_append (a b : List SpanEv) :
    spanStarts (a ++ b) = spanStarts a ++ spanStarts b :=
  List.filterMap_append a b _

/-- spanEnds distributes over concatenation of traces. -/
theorem spanEnds_append (a b : List SpanEv) :
    spanEnds (a ++ b) = spanEnds a ++ spanEnds b :=
  List.filterMap_append a b _

/-- The starts of a pure block of start events are the names themselves. -/
theorem spanStarts_starts (L : List String) : spanStarts (L.map SpanEv.spanStart) = L := by
  induction L with
  | nil => rfl
  | cons n L ih => simp [spanStarts, List.filterMap_cons] at ih ⊢; exact ih

/-- A pure block of end events starts nothing. -/
theorem spanStarts_ends (L : List String) : spanStarts (L.map SpanEv.spanEnd) = [] := by
  induction L with
  | nil => rfl
  | cons n L ih => simp [spanStarts, List.filterMap_cons, ih]

/-- A pure block of start events ends nothing. -/
theorem spanEnds_starts (L : List String) : spanEnds (L.map SpanEv.spanStart) = [] := by
  induction L with
  | nil => rfl
  | cons n L ih => simp [spanEnds, List.filterMap_cons, ih]

/-- The ends of a pure block of end events are the names themselves. -/
theorem spanEnds_ends (L : List String) : spanEnds (L.map SpanEv.spanEnd) = L := by
  induction L with
  | nil => rfl
  | cons n L ih => simp [spanEnds, List.filterMap_cons] at ih ⊢; exact ih

/-- In every request trace, the multiset of started span names equals the
multiset of ended span names: each started span is ended exactly once. -/
theorem requestEvents_starts_perm_ends (root : String) (stmts : List HStmt) (k : Nat) :
    (spanStarts (requestEvents root stmts k)).Perm
      (spanEnds (requestEvents root stmts k)) := by
  have ha : spanStarts (requestEvents root stmts k) =
      root :: startedNames (stmts.take k) := by
    unfold requestEvents handlerEvents
    rw [show SpanEv.spanStart root :: ((startedNames (stmts.take k)).map SpanEv.spanStart ++
          ((startedNames (stmts.take k)).reverse.map SpanEv.spanEnd) ++ [SpanEv.spanEnd root]) =
        [SpanEv.spanStart root] ++ ((startedNames (stmts.take k)).map SpanEv.spanStart ++
          ((startedNames (stmts.take k)).reverse.map SpanEv.spanEnd) ++ [SpanEv.spanEnd root]) from rfl]
    rw [spanStarts_append, spanStarts_append, spanStarts_append,
      spanStarts_starts, spanStarts_ends]
    simp [spanStarts]
  have hb : spanEnds (requestEvents root stmts k) =
      (startedNames (stmts.take k)).reverse ++ [root] := by
    unfold requestEvents handlerEvents
    rw [show SpanEv.spanStart root :: ((startedNames (stmts.take k)).map SpanEv.spanStart ++
          ((startedNames (stmts.take k)).reverse.map SpanEv.spanEnd) ++ [SpanEv.spanEnd root]) =
        [SpanEv.spanStart root] ++ ((startedNames (stmts.take k)).map SpanEv.spanStart ++
          ((startedNames (stmts.take k)).reverse.map SpanEv.spanEnd) ++ [SpanEv.spanEnd root]) from rfl]
    rw [spanEnds_append, spanEnds_append, spanEnds_append,
      spanEnds_starts, spanEnds_ends]
    simp [spanEnds]
  rw [ha, hb]
  have h2 : ((startedNames (stmts.take k)).reverse ++ [root]).Perm
      (startedNames (stmts.take k) ++ [root]) :=
    (List.reverse_perm _).append_right _
  have h3 : (startedNames (stmts.take k) ++ [root]).Perm
      (root :: startedNames (stmts.take k)) :=
    List.perm_append_singleton _ _
  exact (h2.trans h3).symm

/-- The Content-Type header set by writeJSON is what a client reads back. -/
theorem headerGet_setHeader (hs : List (String × String)) (k v : String) :
    headerGet (setHeader hs k v) k = some v := by
  induction hs with
  | nil => simp [headerGet, setHeader]
  | cons p hs ih =>
      by_cases h : p.1 = k
      · simp only [setHeader, List.filter_cons, h]
        simp only [bne_self_eq_false, Bool.false_eq_true, if_false]
        exact ih
      · simp only [setHeader, List.filter_cons]
        rw [if_pos (by simp [h])]
        simp only [headerGet, List.find?_cons, List.cons_append]
        rw [show (p.1 == k) = false from by simp [h]]
        exact ih

/-! ## Claim theorems -/

/-- C1: for every request handled by any of the registered route handlers,
every span started during the request (the middleware's request span and
the handler's deferred child span) is ended exactly once before control
returns past the middleware, on every exit path: `k` ranges over all
termination points of the handler body, covering normal return, early
return, and panic-equivalent failure, and the deferred ends still run. -/
theorem C1_spans_end_exactly_once (k : Nat) (root path nm id : String)
    (stmts : List HStmt) (_hmem : stmts ∈ allHandlerBodies path nm id) :
    scopeCheck [] (requestEvents root stmts k) = true ∧
      (spanStarts (requestEvents root stmts k)).Perm
        (spanEnds (requestEvents root stmts k)) :=
  ⟨requestEvents_wellScoped root stmts k, requestEvents_starts_perm_ends root stmts k⟩

/-- C1 witness: the healthz handler of the stdlib variant, terminated right
after its span starts, still ends both spans. -/
theorem C1_spans_end_exactly_once_witness :
    scopeCheck [] (requestEvents "http-server" (healthzStmts "/healthz") 1) = true ∧
      (spanStarts (requestEvents "http-server" (healthzStmts "/healthz") 1)).Perm
        (spanEnds (requestEvents "http-server" (healthzStmts "/healthz") 1)) :=
  C1_spans_end_exactly_once 1 "http-server" "/healthz" "World" "42"
    (healthzStmts "/healthz") (by simp [allHandlerBodies])

/-- C5 counterexample: it is not the case that both shutdown phases of both
variants are bounded — the chi variant's provider flush runs under a bare
background context, so no bound caps its blocking time. -/
theorem C5_counterexample :
    ¬ (phaseBounded stdShutdownPlan.listenerTimeout ∧
       phaseBounded stdShutdownPlan.providerTimeout ∧
       phaseBounded chiShutdownPlan.listenerTimeout ∧
       phaseBounded chiShutdownPlan.providerTimeout) := by
  rintro ⟨-, -, -, B, hB⟩
  have h := hB (B + 1)
  simp [blockTime, chiShutdownPlan] at h

/-- C5 amended: the listener shutdown in both variants and the provider
flush in the stdlib variant run under hard timeouts (10s, 10s and 5s), but
the chi variant's provider flush is invoked with an unbounded background
context, so its blocking time has no bound. -/
theorem C5_amended_shutdown_bounds :
    phaseBounded stdShutdownPlan.listenerTimeout ∧
    phaseBounded stdShutdownPlan.providerTimeout ∧
    phaseBounded chiShutdownPlan.listenerTimeout ∧
    ¬ phaseBounded chiShutdownPlan.providerTimeout := by
  refine ⟨⟨10, fun work => ?_⟩, ⟨5, fun work => ?_⟩, ⟨10, fun work => ?_⟩, ?_⟩
  · simp [blockTime, stdShutdownPlan]
  · simp [blockTime, stdShutdownPlan]
  · simp [blockTime, chiShutdownPlan]
  · rintro ⟨B, hB⟩
    have h := hB (B + 1)
    simp [blockTime, chiShutdownPlan] at h

/-- C6: whenever the tracing endpoint or the tracing API key variable is
absent (empty), exporter creation fails with a configuration error in both
variants, and the startup event trace is empty: no collector connection is
attempted. -/
theorem C6_config_error_before_network (env : Env)
    (h : env.newRelicOtlpEndpoint = "" ∨ env.newRelicApiKey = "") :
    (∃ msg, (newExporter env).1 = Except.error msg) ∧ (newExporter env).2 = [] ∧
    (∃ msg, (initTracer env).1 = Except.error msg) ∧ (initTracer env).2 = [] := by
  rcases h with h | h
  · simp [newExporter, initTracer, h]
  · by_cases he : env.newRelicOtlpEndpoint = "" <;>
      simp [newExporter, initTracer, he, h]

/-- C6 witness: an environment with the endpoint missing. -/
theorem C6_config_error_before_network_witness :
    (∃ msg, (newExporter ⟨"", "some-key"⟩).1 = Except.error msg) ∧
    (newExporter ⟨"", "some-key"⟩).2 = [] ∧
    (∃ msg, (initTracer ⟨"", "some-key"⟩).1 = Except.error msg) ∧
    (initTracer ⟨"", "some-key"⟩).2 = [] :=
  C6_config_error_before_network ⟨"", "some-key"⟩ (Or.inl rfl)

/-- C7: with the API key or the endpoint variable missing, each variant
deterministically takes one of the two allowed behaviors: the stdlib
variant binds the listener and serves with tracing disabled (after a
warning, never connecting to the collector), and the chi variant exits
with status 1 without ever binding the listener. -/
theorem C7_missing_key_policy (env : Env)
    (h : env.newRelicOtlpEndpoint = "" ∨ env.newRelicApiKey = "") :
    (mainStd env).1 = StartupOutcome.serving false ∧
    StartEv.bindListener 8080 ∈ (mainStd env).2 ∧
    (∀ ep gh, StartEv.connectCollector ep gh ∉ (mainStd env).2) ∧
    (mainChi env).1 = StartupOutcome.exitNonZero 1 ∧
    (∀ p, StartEv.bindListener p ∉ (mainChi env).2) := by
  rcases h with h | h
  · simp [mainStd, mainChi, initTracer, newExporter, h]
  · by_cases he : env.newRelicOtlpEndpoint = "" <;>
      simp [mainStd, mainChi, initTracer, newExporter, he, h]

/-- C7 witness: endpoint set, API key missing. -/
theorem C7_missing_key_policy_witness :
    (mainStd ⟨"otlp.example:4317", ""⟩).1 = StartupOutcome.serving false ∧
    StartEv.bindListener 8080 ∈ (mainStd ⟨"otlp.example:4317", ""⟩).2 ∧
    (∀ ep gh, StartEv.connectCollector ep gh ∉ (mainStd ⟨"otlp.example:4317", ""⟩).2) ∧
    (mainChi ⟨"otlp.example:4317", ""⟩).1 = StartupOutcome.exitNonZero 1 ∧
    (∀ p, StartEv.bindListener p ∉ (mainChi ⟨"otlp.example:4317", ""⟩).2) :=
  C7_missing_key_policy ⟨"otlp.example:4317", ""⟩ (Or.inr rfl)

/-- C8: for every (possibly absent) name query parameter, GET /hello
returns status 200 with message "Hello, World!" when the parameter is
absent or empty and "Hello, s!" otherwise. -/
theorem C8_hello_message (q : Option String) :
    getHello q =
      (200, JVal.jobj
        [("message", JVal.jstr
            (if q.getD "" = "" then "Hello, World!" else "Hello, " ++ q.getD "" ++ "!"))]) := by
  unfold getHello
  by_cases h : q.getD "" = "" <;> simp [h]

/-- C9: GET /users/\x7bid\x7d returns status 200 with an id field equal to
the raw path parameter, a profile whose nickname is "guest", and a
created_at read from the UTC clock during the request, hence between the
request start and the response send whenever the clock is monotone. -/
theorem C9_user_payload (id : String) (t0 t1 t2 : Nat)
    (h0 : t0 ≤ t1) (h1 : t1 ≤ t2) :
    (getUserByID id t1).1 = 200 ∧
    (∃ fs, (getUserByID id t1).2 = JVal.jobj fs ∧
      jlookup fs "id" = some (JVal.jstr id) ∧
      (∃ pfs, jlookup fs "profile" = some (JVal.jobj pfs) ∧
        jlookup pfs "nickname" = some (JVal.jstr "guest") ∧
        (∃ ca utc, jlookup pfs "created_at" = some (JVal.jtime ca utc) ∧
          utc = true ∧ t0 ≤ ca ∧ ca ≤ t2))) := by
  refine ⟨rfl, ⟨_, rfl, by simp [jlookup],
    ⟨[("nickname", JVal.jstr "guest"), ("created_at", JVal.jtime t1 true)],
     by simp [jlookup], by simp [jlookup],
     ⟨t1, true, by simp [jlookup], rfl, h0, h1⟩⟩⟩⟩

/-- C9 witness: a concrete id with clock readings 1 ≤ 2 ≤ 3. -/
theorem C9_user_payload_witness :
    (getUserByID "alice" 2).1 = 200 ∧
    (∃ fs, (getUserByID "alice" 2).2 = JVal.jobj fs ∧
      jlookup fs "id" = some (JVal.jstr "alice") ∧
      (∃ pfs, jlookup fs "profile" = some (JVal.jobj pfs) ∧
        jlookup pfs "nickname" = some (JVal.jstr "guest") ∧
        (∃ ca utc, jlookup pfs "created_at" = some (JVal.jtime ca utc) ∧
          utc = true ∧ 1 ≤ ca ∧ ca ≤ 3))) :=
  C9_user_payload "alice" 1 2 3 (by decide) (by decide)

/-- C10: writeJSON always sets the Content-Type header and writes the
status code, in that order, before the encode is attempted; a
body-encoding failure writes nothing further, leaves the status and
headers exactly as already written, and the encoding error is discarded
(never surfaced to the caller or the client). -/
theorem C10_writeJSON_order_and_error_discard (w : RespWriter) (status : Nat) :
    (∀ enc,
       (writeJSON w status enc).2.1.take 3 =
         [WriteEv.headerSet "Content-Type" "application/json; charset=utf-8",
          WriteEv.statusSet status, WriteEv.encodeAttempt] ∧
       (writeJSON w status enc).2.2 = none ∧
       (writeJSON w status enc).1.statusWritten = some status ∧
       headerGet (writeJSON w status enc).1.headers "Content-Type" =
         some "application/json; charset=utf-8") ∧
    (∀ e,
       (writeJSON w status (Except.error e)).1 =
         { headers := setHeader w.headers "Content-Type" "application/json; charset=utf-8",
           statusWritten := some status,
           body := w.body }) ∧
    (∀ s,
       (writeJSON w status (Except.ok s)).1 =
         { headers := setHeader w.headers "Content-Type" "application/json; charset=utf-8",
           statusWritten := some status,
           body := w.body ++ [s] }) := by
  refine ⟨fun enc => ?_, fun e => rfl, fun s => rfl⟩
  cases enc with
  | ok s => exact ⟨rfl, rfl, rfl, headerGet_setHeader w.headers _ _⟩
  | error e => exact ⟨rfl, rfl, rfl, headerGet_setHeader w.headers _ _⟩

/-- C2: whenever the body parses as a JSON value v, POST /echo answers 200
with a you_sent field structurally equal to v, and whenever the body does
not parse it answers 400 with the error payload; the body "\x7b" does not
parse, the body "\x7b\x7d" parses to the empty object, the leading-zero
number body "01" does not parse, and the escaped string body
"\"\\u0041\"" parses to the string "A". -/
theorem C2_echo_roundtrip (body : String) (clock : Nat) (v : JVal) :
    (parseJson body = some v →
       postEcho body clock =
         (200, JVal.jobj [("you_sent", v), ("at", JVal.jtime clock true)])) ∧
    (parseJson body = none →
       postEcho body clock = (400, JVal.jobj [("error", JVal.jstr "invalid JSON")])) ∧
    parseJson "\x7b" = none ∧ parseJson "\x7b\x7d" = some (JVal.jobj []) ∧
    parseJson "01" = none ∧ parseJson "\"\\u0041\"" = some (JVal.jstr "A") := by
  refine ⟨?_, ?_, rfl, rfl, rfl, rfl⟩
  · intro h
    unfold postEcho
    rw [h]
  · intro h
    unfold postEcho
    rw [h]

/-- C2 witness: the body "\x7b\x7d" yields 200 echoing the empty object,
and the body "\x7b" yields 400. -/
theorem C2_echo_roundtrip_witness :
    postEcho "\x7b\x7d" 7 =
      (200, JVal.jobj [("you_sent", JVal.jobj []), ("at", JVal.jtime 7 true)]) ∧
    postEcho "\x7b" 7 = (400, JVal.jobj [("error", JVal.jstr "invalid JSON")]) :=
  ⟨(C2_echo_roundtrip "\x7b\x7d" 7 (JVal.jobj [])).1 rfl,
   (C2_echo_roundtrip "\x7b" 7 JVal.jnull).2.1 rfl⟩
